import Mathlib

/-!
Verification of the pairwise-condition-labeling and statistical-comparison
pipeline of the context-framed-listening repository.

The embedding models the core data path: an n×n cosine-similarity matrix
(`ℕ → ℕ → ℚ`, exact rationals standing for the floating-point entries) and
per-document metadata (clip / context / genre label lists) are turned into a
long-form table of Pair Records by three duplicated classifier
implementations (`analysis_utils.extract_similarity_by_condition`,
`nlp_analysis_utils.build_similarity_dataframe`,
`NLP_functions.embedding_utils_tfidf.extract_similarity_by_condition`), and
the downstream comparators (binary, named-condition, within-factor,
omnibus) consume that table.  Fallible float values (pandas `NaN`) are
modelled with `Option`; real-valued statistics that are delegated to
scipy (t statistics, p values, Levene's test) are not modelled — the
claims under verification concern the classification logic, the guard
structure and the exact rational formulas (Cohen's d pooled denominator,
coefficient of variation, eta squared).
-/

/-- The five condition labels, plus the dead `"other"` label of the
TF-IDF copy, are plain strings as in the source. -/
def allConditions : List String :=
  [ "same_clip_same_context"
  , "same_clip_diff_context"
  , "diff_clip_same_context"
  , "diff_clip_diff_context_same_genre"
  , "diff_clip_diff_context_diff_genre" ]

/-- One row of the document metadata table (`METdocs`): the three label
columns consumed by the classifier, as aligned lists (row `i` of the
dataframe is position `i` of each list). -/
structure Metadata where
  clips : List String
  contexts : List String
  genres : List String
deriving DecidableEq, Repr

/-- One row of the long-form similarity table built by the classifier:
`doc_i`, `doc_j`, `similarity`, the three boolean indicator columns and the
categorical `condition` column.  The `nlp_analysis_utils` copy names the
index columns `i`/`j` instead of `doc_i`/`doc_j`; the field content is
identical, so one record type serves all three implementations. -/
structure PairRecord where
  doc_i : ℕ
  doc_j : ℕ
  similarity : ℚ
  same_clip : Bool
  same_context : Bool
  same_genre : Bool
  condition : String
deriving DecidableEq, Repr

/-- The upper-triangle pair enumeration `for i in range(n): for j in
range(i+1, n)` shared (textually) by the nested loops of
`analysis_utils.extract_similarity_by_condition` and the TF-IDF copy:
row-major list of all `(i, j)` with `i < j < n`. -/
def upperPairs (n : ℕ) : List (ℕ × ℕ) :=
  (List.range n).flatMap fun i =>
    (List.range' (i + 1) (n - (i + 1))).map fun j => (i, j)

/-- `nlp_analysis_utils.pairwise_indices`: the same generator, a separate
named function in the source. -/
def pairwise_indices (n : ℕ) : List (ℕ × ℕ) :=
  (List.range n).flatMap fun i =>
    (List.range' (i + 1) (n - (i + 1))).map fun j => (i, j)

/-- `clips[i] == clips[j]` for a metadata table (missing metadata is an
undefined edge case in the source; `getD` with `""` makes the lookup
total, and all claims presume complete metadata). -/
def sameClip (md : Metadata) (i j : ℕ) : Bool :=
  md.clips.getD i "" == md.clips.getD j ""

/-- `contexts[i] == contexts[j]`. -/
def sameContext (md : Metadata) (i j : ℕ) : Bool :=
  md.contexts.getD i "" == md.contexts.getD j ""

/-- `genres[i] == genres[j]`. -/
def sameGenre (md : Metadata) (i j : ℕ) : Bool :=
  md.genres.getD i "" == md.genres.getD j ""

/-- The condition chain of `analysis_utils.extract_similarity_by_condition`
(lines 150–161): `if same_clip and same_context … elif … else` with the
final branch split on `same_genre`. -/
def conditionLabel (sc sx sg : Bool) : String :=
  if sc && sx then "same_clip_same_context"
  else if sc && !sx then "same_clip_diff_context"
  else if !sc && sx then "diff_clip_same_context"
  else if sg then "diff_clip_diff_context_same_genre"
  else "diff_clip_diff_context_diff_genre"

/-- The condition chain of `nlp_analysis_utils.build_similarity_dataframe`
(lines 32–39), written out separately because the source duplicates it. -/
def conditionLabelNlp (sc sx sg : Bool) : String :=
  if sc && sx then "same_clip_same_context"
  else if sc && !sx then "same_clip_diff_context"
  else if !sc && sx then "diff_clip_same_context"
  else if sg then "diff_clip_diff_context_same_genre"
  else "diff_clip_diff_context_diff_genre"

/-- The condition chain of the TF-IDF copy
(`embedding_utils_tfidf.extract_similarity_by_condition`, lines 241–253):
it spells out the fourth case `elif not same_clip and not same_context`
and has a trailing (unreachable) `else: condition = 'other'`. -/
def conditionLabelTfidf (sc sx sg : Bool) : String :=
  if sc && sx then "same_clip_same_context"
  else if sc && !sx then "same_clip_diff_context"
  else if !sc && sx then "diff_clip_same_context"
  else if !sc && !sx then
    (if sg then "diff_clip_diff_context_same_genre"
     else "diff_clip_diff_context_diff_genre")
  else "other"

/-- `analysis_utils.extract_similarity_by_condition`: one record per
upper-triangle pair `(i, j)`, `i < j < n` with `n = cosine_matrix.shape[0]`,
in the source's row-major loop order.  The `verbose` progress printing is
I/O and is not part of the data path. -/
def extract_similarity_by_condition (n : ℕ) (sim : ℕ → ℕ → ℚ)
    (md : Metadata) : List PairRecord :=
  (upperPairs n).map fun p =>
    { doc_i := p.1
      doc_j := p.2
      similarity := sim p.1 p.2
      same_clip := sameClip md p.1 p.2
      same_context := sameContext md p.1 p.2
      same_genre := sameGenre md p.1 p.2
      condition := conditionLabel (sameClip md p.1 p.2)
        (sameContext md p.1 p.2) (sameGenre md p.1 p.2) }

/-- `nlp_analysis_utils.build_similarity_dataframe`: iterates
`pairwise_indices(n)` with `n = cosine_matrix.shape[0]` and its own copy of
the boolean computations and condition chain. -/
def build_similarity_dataframe (n : ℕ) (sim : ℕ → ℕ → ℚ)
    (md : Metadata) : List PairRecord :=
  (pairwise_indices n).map fun p =>
    { doc_i := p.1
      doc_j := p.2
      similarity := sim p.1 p.2
      same_clip := sameClip md p.1 p.2
      same_context := sameContext md p.1 p.2
      same_genre := sameGenre md p.1 p.2
      condition := conditionLabelNlp (sameClip md p.1 p.2)
        (sameContext md p.1 p.2) (sameGenre md p.1 p.2) }

/-- The TF-IDF copy: same nested loop, but `n_docs = len(metadata_df)`
(the metadata row count, i.e. the length of the clip column) rather than
the matrix dimension, and its own condition chain. -/
def extract_similarity_by_condition_tfidf (sim : ℕ → ℕ → ℚ)
    (md : Metadata) : List PairRecord :=
  (upperPairs md.clips.length).map fun p =>
    { doc_i := p.1
      doc_j := p.2
      similarity := sim p.1 p.2
      same_clip := sameClip md p.1 p.2
      same_context := sameContext md p.1 p.2
      same_genre := sameGenre md p.1 p.2
      condition := conditionLabelTfidf (sameClip md p.1 p.2)
        (sameContext md p.1 p.2) (sameGenre md p.1 p.2) }

-- ## Statistical helper functions

/-- pandas `Series.mean()` over the exact rationals (`sum / len`; the
empty-series `NaN` case is never reached on the guarded paths proved
below). -/
def seriesMean (xs : List ℚ) : ℚ := xs.sum / xs.length

/-- pandas `Series.std() ** 2`, i.e. the sample variance with `ddof = 1`:
`NaN` (`none`) when fewer than two observations, otherwise
`Σ (x − mean)² / (len − 1)`. -/
def sampleVar? (xs : List ℚ) : Option ℚ :=
  if xs.length < 2 then none
  else some ((xs.map fun x => (x - seriesMean xs) ^ 2).sum
    / ((xs.length : ℚ) - 1))

/-- `analysis_utils.compute_cohens_d`: pooled standard deviation
`sqrt((sd1² + sd2²)/2)`; return `np.nan` when it is `0`, else
`(mean1 − mean2) / pooled_std`.  The square root of a rational is
irrational in general, so the non-`NaN` result is represented exactly as
the pair `(mean1 − mean2, (sd1² + sd2²)/2)` — numerator and squared
denominator; `pooled_std == 0` is equivalent to the pooled variance being
`0` because the variances are nonnegative.  A `NaN` standard deviation
(a group with fewer than two observations) propagates to a `NaN` result
in the source (`NaN != 0` and `x / NaN = NaN`), hence `none` here. -/
def compute_cohens_d (g1 g2 : List ℚ) : Option (ℚ × ℚ) :=
  match sampleVar? g1, sampleVar? g2 with
  | some v1, some v2 =>
    if (v1 + v2) / 2 = 0 then none
    else some (seriesMean g1 - seriesMean g2, (v1 + v2) / 2)
  | _, _ => none

/-- `analysis_utils.safe_cv`: `np.nan` when `mean == 0 or np.isnan(mean)`,
otherwise `std / mean`; a `NaN` std (`none`) likewise propagates to a
`NaN` quotient. -/
def safe_cv (std mean : Option ℚ) : Option ℚ :=
  match mean with
  | none => none
  | some m =>
    if m = 0 then none
    else match std with
      | none => none
      | some s => some (s / m)

/-- The exact value of the IEEE float expression `std / mean` with
`std = sqrt(v) ≥ 0`: either `NaN`, `+∞` (a positive number divided by
`+0.0`), or the finite value `s·√q` recorded as its sign `s` and square
`q` (the source's floats only approximate it; the branch structure —
which of the three shapes arises — is exact). -/
inductive FloatSqrtVal where
  | nan : FloatSqrtVal
  | inf : FloatSqrtVal
  | finiteSqrt (s : Int) (q : ℚ) : FloatSqrtVal
deriving DecidableEq, Repr

/-- The unguarded coefficient of variation
`factor_sims.std() / factor_sims.mean()` of
`NLP_functions/analysis_functions.analyze_within_factor_similarity`
(line 61): `NaN` std (fewer than two pairs) gives `NaN`; a zero mean
gives `NaN` only when the std is also `0`, and `+∞` otherwise (numpy
float division raises no exception); a nonzero mean gives the finite
value `sign(mean)·√(v/mean²)`. -/
def cvUnguarded (sims : List ℚ) : FloatSqrtVal :=
  match sampleVar? sims with
  | none => .nan
  | some v =>
    if seriesMean sims = 0 then
      (if v = 0 then .nan else .inf)
    else
      .finiteSqrt (if 0 < seriesMean sims then 1 else -1)
        (v / (seriesMean sims) ^ 2)

/-- `analysis_utils.get_significance_marker`: fixed p-value thresholds
`0.001`, `0.01`, `0.05`. -/
def get_significance_marker (p : ℚ) : String :=
  if p < 1 / 1000 then "***"
  else if p < 1 / 100 then "**"
  else if p < 1 / 20 then "*"
  else "n.s."

/-- `nlp_analysis_utils._sig_from_p`: the same chain, duplicated in the
source as a conditional expression. -/
def sig_from_p (p : ℚ) : String :=
  if p < 1 / 1000 then "***"
  else if p < 1 / 100 then "**"
  else if p < 1 / 20 then "*"
  else "n.s."

-- ## Named-condition comparator

/-- `sim_df[sim_df["condition"] == cond]["similarity"]`: the similarity
column of the rows labeled `cond`. -/
def condSimilarities (simDf : List PairRecord) (cond : String) : List ℚ :=
  (simDf.filter fun r => r.condition == cond).map fun r => r.similarity

/-- The fields of the dictionary returned by
`analysis_utils.compare_conditions` that the embedding models exactly:
group means, their difference, the Cohen's d representation and the group
sizes.  The `t`, `p` and `sig` entries are scipy real-valued statistics
outside the model (the comparator's control flow does not branch on
them). -/
structure ComparisonResult where
  mean1 : ℚ
  mean2 : ℚ
  diff : ℚ
  d : Option (ℚ × ℚ)
  n1 : ℕ
  n2 : ℕ
deriving DecidableEq, Repr

/-- `analysis_utils.compare_conditions`: select the two named condition
groups; return `None` when either has fewer than two rows, otherwise the
comparison record.  (The display labels only format the `comparison`
string and are omitted.) -/
def compare_conditions (simDf : List PairRecord)
    (cond1 cond2 : String) : Option ComparisonResult :=
  if (condSimilarities simDf cond1).length < 2
      ∨ (condSimilarities simDf cond2).length < 2 then none
  else some
    { mean1 := seriesMean (condSimilarities simDf cond1)
      mean2 := seriesMean (condSimilarities simDf cond2)
      diff := seriesMean (condSimilarities simDf cond1)
        - seriesMean (condSimilarities simDf cond2)
      d := compute_cohens_d (condSimilarities simDf cond1)
        (condSimilarities simDf cond2)
      n1 := (condSimilarities simDf cond1).length
      n2 := (condSimilarities simDf cond2).length }

-- ## Within-factor clip-driven vs context-driven group selection

/-- The clip-driven rows of
`analysis_utils.analyze_factor_clip_vs_context` (lines 548–561) for one
factor level: the branch on `factor_name == 'Context'` selects OR logic
over the two per-document factor columns, any other factor (Genre) AND
logic.  `keyOf d` models the dynamically named column
`sim_df[f'{factor_key}_i']` / `..._j`, whose entry for a row is the
factor-column value of the row's document index. -/
def clip_driven_rows (factor_name : String) (keyOf : ℕ → String)
    (level : String) (simDf : List PairRecord) : List PairRecord :=
  if factor_name == "Context" then
    simDf.filter fun r =>
      r.condition == "same_clip_diff_context"
        && (keyOf r.doc_i == level || keyOf r.doc_j == level)
  else
    simDf.filter fun r =>
      r.condition == "same_clip_diff_context"
        && (keyOf r.doc_i == level && keyOf r.doc_j == level)

/-- The context-driven rows (lines 564–569): always AND logic, whatever
the factor. -/
def context_driven_rows (keyOf : ℕ → String)
    (level : String) (simDf : List PairRecord) : List PairRecord :=
  simDf.filter fun r =>
    r.condition == "diff_clip_same_context"
      && (keyOf r.doc_i == level && keyOf r.doc_j == level)

-- ## Omnibus analyzer

/-- The condition column of the table. -/
def conditionsOf (simDf : List PairRecord) : List String :=
  simDf.map fun r => r.condition

/-- pandas `Series.unique()`: the distinct values in order of first
appearance. -/
def uniqueList (l : List String) : List String :=
  l.foldl (fun acc c => if c ∈ acc then acc else acc ++ [c]) []

/-- The grand mean `sim_df['similarity'].mean()`. -/
def grandMean (simDf : List PairRecord) : ℚ :=
  seriesMean (simDf.map fun r => r.similarity)

/-- `run_omnibus_test`'s `ss_between` (comparison_functions.py line 272):
`Σ over groups of len(g)·(mean(g) − grand_mean)²`, the groups being one
per distinct condition value. -/
def ssBetween (simDf : List PairRecord) : ℚ :=
  ((uniqueList (conditionsOf simDf)).map fun c =>
    ((condSimilarities simDf c).length : ℚ)
      * (seriesMean (condSimilarities simDf c) - grandMean simDf) ^ 2).sum

/-- `run_omnibus_test`'s `ss_total` (line 273):
`Σ over all rows of (similarity − grand_mean)²`. -/
def ssTotal (simDf : List PairRecord) : ℚ :=
  ((simDf.map fun r => r.similarity).map fun x =>
    (x - grandMean simDf) ^ 2).sum

/-- The `eta_squared = ss_between / ss_total` reported by
`run_omnibus_test` (line 274); the scipy `f_oneway` F statistic and
p-value are real-valued and outside the model. -/
def run_omnibus_eta (simDf : List PairRecord) : ℚ :=
  ssBetween simDf / ssTotal simDf

-- ## Basic lemmas about the pair enumeration

lemma pairwise_indices_eq_upperPairs (n : ℕ) :
    pairwise_indices n = upperPairs n := rfl

lemma list_sum_map_range (f : ℕ → ℕ) (n : ℕ) :
    ((List.range n).map f).sum = ∑ i ∈ Finset.range n, f i := by
  induction n with
  | zero => simp
  | succ n ih =>
    rw [List.range_succ, Finset.sum_range_succ, List.map_append,
      List.sum_append, ih]
    simp

lemma upperPairs_length (n : ℕ) : (upperPairs n).length = n * (n - 1) / 2 := by
  have hlen : (upperPairs n).length
      = ((List.range n).map fun i => n - (i + 1)).sum := by
    rw [upperPairs, List.length_flatMap]
    congr 1
    apply List.map_congr_left
    intro i _
    simp [Function.comp]
  have hsum : ((List.range n).map fun i => n - (i + 1)).sum
      = ∑ i ∈ Finset.range n, (n - 1 - i) := by
    rw [list_sum_map_range]
    exact Finset.sum_congr rfl fun i _ => by omega
  have hreflect : ∑ i ∈ Finset.range n, (n - 1 - i)
      = ∑ i ∈ Finset.range n, i := Finset.sum_range_reflect (fun i => i) n
  rw [hlen, hsum, hreflect, Finset.sum_range_id]

lemma mem_upperPairs {n i j : ℕ} :
    (i, j) ∈ upperPairs n ↔ i < j ∧ j < n := by
  constructor
  · intro h
    simp only [upperPairs, List.mem_flatMap, List.mem_range, List.mem_map,
      List.mem_range'_1] at h
    obtain ⟨a, ha, b, hb, hab⟩ := h
    obtain ⟨h1, h2⟩ := Prod.mk.injEq .. ▸ hab
    subst h1; subst h2
    omega
  · rintro ⟨hij, hjn⟩
    simp only [upperPairs, List.mem_flatMap, List.mem_range, List.mem_map,
      List.mem_range'_1]
    exact ⟨i, by omega, j, by omega, rfl⟩

lemma upperPairs_nodup (n : ℕ) : (upperPairs n).Nodup := by
  rw [upperPairs, List.nodup_flatMap]
  constructor
  · intro i _
    exact (List.nodup_range' ..).map fun a b hab =>
      (Prod.mk.injEq .. ▸ hab).2
  · have : (List.range n).Pairwise (· ≠ ·) :=
      (List.pairwise_lt_range n).imp Nat.ne_of_lt
    refine this.imp ?_
    intro a b hab
    intro x hxa hxb
    simp only [List.mem_map, List.mem_range'_1] at hxa hxb
    obtain ⟨ja, _, rfl⟩ := hxa
    obtain ⟨jb, _, h⟩ := hxb
    exact hab (Prod.mk.injEq .. ▸ h).1.symm

-- ## Helper lemmas

lemma conditionLabelNlp_eq (sc sx sg : Bool) :
    conditionLabelNlp sc sx sg = conditionLabel sc sx sg := by
  cases sc <;> cases sx <;> cases sg <;> rfl

lemma conditionLabelTfidf_eq (sc sx sg : Bool) :
    conditionLabelTfidf sc sx sg = conditionLabel sc sx sg := by
  cases sc <;> cases sx <;> cases sg <;> rfl

lemma conditionLabel_cases (sc sx sg : Bool) :
    (sc = true → sx = true →
       conditionLabel sc sx sg = "same_clip_same_context") ∧
    (sc = true → sx = false →
       conditionLabel sc sx sg = "same_clip_diff_context") ∧
    (sc = false → sx = true →
       conditionLabel sc sx sg = "diff_clip_same_context") ∧
    (sc = false → sx = false → sg = true →
       conditionLabel sc sx sg = "diff_clip_diff_context_same_genre") ∧
    (sc = false → sx = false → sg = false →
       conditionLabel sc sx sg = "diff_clip_diff_context_diff_genre") ∧
    conditionLabel sc sx sg ∈ allConditions := by
  cases sc <;> cases sx <;> cases sg <;> decide

lemma upperPairs_mem_lt {n : ℕ} {p : ℕ × ℕ} (hp : p ∈ upperPairs n) :
    p.1 < p.2 ∧ p.2 < n := by
  have h := mem_upperPairs (n := n) (i := p.1) (j := p.2)
  rw [Prod.mk.eta] at h
  exact h.mp hp

lemma sampleVar?_nonneg {xs : List ℚ} {v : ℚ}
    (h : sampleVar? xs = some v) : 0 ≤ v := by
  unfold sampleVar? at h
  split at h
  · exact absurd h (by simp)
  · rename_i hlen
    injection h with h
    subst h
    apply div_nonneg
    · apply List.sum_nonneg
      intro x hx
      simp only [List.mem_map] at hx
      obtain ⟨y, -, rfl⟩ := hx
      positivity
    · have h2 : (2 : ℚ) ≤ (xs.length : ℚ) := by exact_mod_cast by omega
      linarith

-- ## Claim C1

/-- C1: for every pair record produced by the Pairwise Condition
Classifier, the five condition labels are assigned exactly by the stated
rule set over the three booleans — `same_clip ∧ same_context` gives
`same_clip_same_context`, `same_clip ∧ ¬same_context` gives
`same_clip_diff_context`, `¬same_clip ∧ same_context` gives
`diff_clip_same_context`, and the two remaining cases split on
`same_genre` — so the labels are mutually exclusive and exhaustive over
all boolean combinations (the final conjunct: the label always lies in
the five-element label set). -/
theorem C1_classifier_rules (n : ℕ) (sim : ℕ → ℕ → ℚ) (md : Metadata)
    (r : PairRecord) (hr : r ∈ extract_similarity_by_condition n sim md) :
    (r.same_clip = true → r.same_context = true →
       r.condition = "same_clip_same_context") ∧
    (r.same_clip = true → r.same_context = false →
       r.condition = "same_clip_diff_context") ∧
    (r.same_clip = false → r.same_context = true →
       r.condition = "diff_clip_same_context") ∧
    (r.same_clip = false → r.same_context = false → r.same_genre = true →
       r.condition = "diff_clip_diff_context_same_genre") ∧
    (r.same_clip = false → r.same_context = false → r.same_genre = false →
       r.condition = "diff_clip_diff_context_diff_genre") ∧
    r.condition ∈ allConditions := by
  simp only [extract_similarity_by_condition, List.mem_map] at hr
  obtain ⟨p, -, rfl⟩ := hr
  simpa using conditionLabel_cases (sameClip md p.1 p.2)
    (sameContext md p.1 p.2) (sameGenre md p.1 p.2)

/-- Witness for C1 at a concrete input: two documents sharing clip,
context and genre; their single pair is labeled
`same_clip_same_context`. -/
theorem C1_classifier_rules_witness :
    ({ doc_i := 0, doc_j := 1, similarity := 1, same_clip := true,
       same_context := true, same_genre := true,
       condition := "same_clip_same_context" } : PairRecord).condition
      = "same_clip_same_context" :=
  (C1_classifier_rules 2 (fun _ _ => 1)
    ⟨["a", "a"], ["x", "x"], ["g", "g"]⟩ _ (by decide)).1 rfl rfl

-- ## Claim C2

/-- C2: the classifier produces exactly `n(n−1)/2` Pair Records; their
index pairs are exactly the upper-triangle pairs `(i, j)`, `i < j < n`,
with no duplicate and no omission (`upperPairs` is duplicate-free and its
membership is characterised); each record's similarity value is
`matrix[i][j]`; and only the off-diagonal entries are consumed — two
matrices agreeing off the diagonal yield identical tables. -/
theorem C2_pair_table (n : ℕ) (sim sim' : ℕ → ℕ → ℚ) (md : Metadata)
    (hagree : ∀ i j : ℕ, i ≠ j → sim i j = sim' i j) :
    (extract_similarity_by_condition n sim md).length = n * (n - 1) / 2 ∧
    (extract_similarity_by_condition n sim md).map
      (fun r => (r.doc_i, r.doc_j)) = upperPairs n ∧
    (upperPairs n).Nodup ∧
    (∀ i j : ℕ, (i, j) ∈ upperPairs n ↔ i < j ∧ j < n) ∧
    (∀ r ∈ extract_similarity_by_condition n sim md,
       r.similarity = sim r.doc_i r.doc_j) ∧
    extract_similarity_by_condition n sim md
      = extract_similarity_by_condition n sim' md := by
  refine ⟨?_, ?_, upperPairs_nodup n, fun i j => mem_upperPairs, ?_, ?_⟩
  · simp [extract_similarity_by_condition, upperPairs_length]
  · simp [extract_similarity_by_condition, List.map_map, Function.comp_def]
  · intro r hr
    simp only [extract_similarity_by_condition, List.mem_map] at hr
    obtain ⟨p, -, rfl⟩ := hr
    rfl
  · apply List.map_congr_left
    intro p hp
    have hlt := (upperPairs_mem_lt hp).1
    rw [hagree p.1 p.2 (Nat.ne_of_lt hlt)]

/-- Witness for C2 at `n = 3`: the table has `3` rows, and replacing all
diagonal entries of the matrix by `99` leaves the table unchanged. -/
theorem C2_pair_table_witness :
    (extract_similarity_by_condition 3 (fun i j => (i + j : ℚ))
      ⟨["a", "a", "b"], ["x", "y", "x"], ["g", "g", "h"]⟩).length = 3 ∧
    extract_similarity_by_condition 3 (fun i j => (i + j : ℚ))
      ⟨["a", "a", "b"], ["x", "y", "x"], ["g", "g", "h"]⟩
      = extract_similarity_by_condition 3
          (fun i j => if i = j then 99 else (i + j : ℚ))
          ⟨["a", "a", "b"], ["x", "y", "x"], ["g", "g", "h"]⟩ := by
  have h := C2_pair_table 3 (fun i j => (i + j : ℚ))
    (fun i j => if i = j then 99 else (i + j : ℚ))
    ⟨["a", "a", "b"], ["x", "y", "x"], ["g", "g", "h"]⟩
    (fun i j hij => (if_neg hij).symm)
  refine ⟨?_, h.2.2.2.2.2⟩
  have h1 := h.1
  norm_num at h1
  exact h1

-- ## Claim C3

/-- C3: Cohen's d with the degenerate-variance guard.  With both sample
variances defined (`some v1`, `some v2`), the pooled variance
`(v1 + v2)/2` is nonnegative — so the pooled standard deviation
`sqrt((sd1² + sd2²)/2)` is exactly `0` iff the pooled variance is `0` —
and in that case `compute_cohens_d` returns the `NaN` sentinel (`none`),
not an exception (the Lean function is total); otherwise it returns the
exact representation of `(mean1 − mean2) / pooled_std`: the numerator
together with the squared denominator. -/
theorem C3_cohens_d_guard (g1 g2 : List ℚ) (v1 v2 : ℚ)
    (h1 : sampleVar? g1 = some v1) (h2 : sampleVar? g2 = some v2) :
    0 ≤ (v1 + v2) / 2 ∧
    ((v1 + v2) / 2 = 0 → compute_cohens_d g1 g2 = none) ∧
    ((v1 + v2) / 2 ≠ 0 →
      compute_cohens_d g1 g2
        = some (seriesMean g1 - seriesMean g2, (v1 + v2) / 2)) := by
  refine ⟨?_, ?_, ?_⟩
  · have hv1 := sampleVar?_nonneg h1
    have hv2 := sampleVar?_nonneg h2
    linarith
  · intro h0
    unfold compute_cohens_d
    rw [h1, h2]
    simp [h0]
  · intro h0
    unfold compute_cohens_d
    rw [h1, h2]
    simp [h0]

/-- Witness for C3: the groups `[0, 0]` and `[0, 1]` have pooled
variance `(0 + 1/2)/2 = 1/4 ≠ 0`, so the comparator returns the defined
effect size. -/
theorem C3_cohens_d_guard_witness :
    compute_cohens_d [(0 : ℚ), 0] [(0 : ℚ), 1]
      = some (seriesMean [(0 : ℚ), 0] - seriesMean [(0 : ℚ), 1],
          ((0 : ℚ) + 1 / 2) / 2) :=
  (C3_cohens_d_guard [(0 : ℚ), 0] [(0 : ℚ), 1] 0 (1 / 2)
    (by norm_num [sampleVar?, seriesMean])
    (by norm_num [sampleVar?, seriesMean])).2.2 (by norm_num)

-- ## Claim C4

/-- C4: the Named-Condition Comparator returns the explicit
insufficient-data signal `None` exactly when either named condition group
has fewer than two matching pairs (including none), and with two or more
observations in each group it returns the Comparison Result record; the
Lean function is total, so no exception is possible in either case. -/
theorem C4_insufficient_data (simDf : List PairRecord) (c1 c2 : String) :
    (compare_conditions simDf c1 c2 = none ↔
      (condSimilarities simDf c1).length < 2 ∨
        (condSimilarities simDf c2).length < 2) ∧
    (2 ≤ (condSimilarities simDf c1).length →
     2 ≤ (condSimilarities simDf c2).length →
      compare_conditions simDf c1 c2 = some
        { mean1 := seriesMean (condSimilarities simDf c1)
          mean2 := seriesMean (condSimilarities simDf c2)
          diff := seriesMean (condSimilarities simDf c1)
            - seriesMean (condSimilarities simDf c2)
          d := compute_cohens_d (condSimilarities simDf c1)
            (condSimilarities simDf c2)
          n1 := (condSimilarities simDf c1).length
          n2 := (condSimilarities simDf c2).length }) := by
  constructor
  · unfold compare_conditions
    split_ifs with h
    · simp [h]
    · simp [h]
  · intro ha hb
    unfold compare_conditions
    rw [if_neg (by omega)]

/-- Witness for C4: a four-row table with two pairs in each of the two
compared conditions yields a populated Comparison Result. -/
theorem C4_insufficient_data_witness :
    compare_conditions
      [ { doc_i := 0, doc_j := 1, similarity := 1 / 2, same_clip := true,
          same_context := false, same_genre := true,
          condition := "same_clip_diff_context" }
      , { doc_i := 0, doc_j := 2, similarity := 0, same_clip := false,
          same_context := true, same_genre := false,
          condition := "diff_clip_same_context" }
      , { doc_i := 1, doc_j := 2, similarity := 1 / 2, same_clip := true,
          same_context := false, same_genre := true,
          condition := "same_clip_diff_context" }
      , { doc_i := 1, doc_j := 3, similarity := 1, same_clip := false,
          same_context := true, same_genre := false,
          condition := "diff_clip_same_context" } ]
      "same_clip_diff_context" "diff_clip_same_context"
      = some { mean1 := 1 / 2, mean2 := 1 / 2, diff := 0,
               d := some (0, 1 / 4), n1 := 2, n2 := 2 } := by
  refine Eq.trans ((C4_insufficient_data _ _ _).2 ?_ ?_) ?_
  · decide
  · decide
  · simp +decide only [condSimilarities, List.filter, List.map]
    norm_num [compute_cohens_d, sampleVar?, seriesMean]

-- ## Claim C5

/-- C5: the Within-Factor Analyzer's per-level group selection.  For the
Context factor the clip-driven group uses OR logic (condition
`same_clip_diff_context` and at least one of the pair's two
factor-column values equal to the level), while the context-driven group
uses AND logic (condition `diff_clip_same_context` and both values equal
to the level); for the Genre factor the clip-driven group also uses AND
logic, and the context-driven filter is AND for every factor.  Stated as
a membership characterisation of the filtered rows, for every level. -/
theorem C5_or_and_filters (keyOf : ℕ → String) (level : String)
    (simDf : List PairRecord) (r : PairRecord) :
    (r ∈ clip_driven_rows "Context" keyOf level simDf ↔
      r ∈ simDf ∧ r.condition = "same_clip_diff_context" ∧
        (keyOf r.doc_i = level ∨ keyOf r.doc_j = level)) ∧
    (r ∈ context_driven_rows keyOf level simDf ↔
      r ∈ simDf ∧ r.condition = "diff_clip_same_context" ∧
        (keyOf r.doc_i = level ∧ keyOf r.doc_j = level)) ∧
    (r ∈ clip_driven_rows "Genre" keyOf level simDf ↔
      r ∈ simDf ∧ r.condition = "same_clip_diff_context" ∧
        (keyOf r.doc_i = level ∧ keyOf r.doc_j = level)) := by
  refine ⟨?_, ?_, ?_⟩ <;>
    simp [clip_driven_rows, context_driven_rows, List.mem_filter,
      and_assoc]

-- ## Claim C6

/-- C6 (code bug): the claim — the coefficient of variation is reported
as `NaN` whenever the mean similarity of a level's pairs is exactly `0` —
holds of the guarded `safe_cv` used by `analysis_utils` (last two
conjuncts, including for a `NaN` standard deviation), but the duplicated
Within-Factor Analyzer in `NLP_functions/analysis_functions.py` computes
`std()/mean()` unguarded: on the level similarities
`[-1/2, 0, 1/2]` (mean exactly `0`, SD `= 1/2 ≠ 0`) the float division
yields `+∞`, not `NaN` (first conjunct); no exception is raised on
either path. -/
theorem C6_cv_mean_zero (std : Option ℚ) :
    cvUnguarded [-(1 : ℚ) / 2, 0, 1 / 2] = FloatSqrtVal.inf ∧
    safe_cv (some (1 / 2)) (some 0) = none ∧
    safe_cv std (some 0) = none := by
  refine ⟨?_, rfl, ?_⟩
  · have hv : sampleVar? [-(1 : ℚ) / 2, 0, 1 / 2] = some (1 / 4) := by
      norm_num [sampleVar?, seriesMean]
    have hm : seriesMean [-(1 : ℚ) / 2, 0, 1 / 2] = 0 := by
      norm_num [seriesMean]
    unfold cvUnguarded
    rw [hv, hm]
    norm_num
  · simp [safe_cv]

/-- Witness for C6 at the trivial concrete instantiation of the
remaining parameter. -/
theorem C6_cv_mean_zero_witness :
    cvUnguarded [-(1 : ℚ) / 2, 0, 1 / 2] = FloatSqrtVal.inf ∧
    safe_cv none (some 0) = none :=
  ⟨(C6_cv_mean_zero none).1, (C6_cv_mean_zero none).2.2⟩

-- ## Claim C7

/-- C7: the significance marker follows the fixed thresholds — `"***"`
for `p < 0.001`, `"**"` for `0.001 ≤ p < 0.01`, `"*"` for
`0.01 ≤ p < 0.05`, `"n.s."` otherwise — and the duplicated
`_sig_from_p` chain agrees with `get_significance_marker` at every
p-value. -/
theorem C7_sig_thresholds (p : ℚ) :
    get_significance_marker p = sig_from_p p ∧
    (p < 1 / 1000 → get_significance_marker p = "***") ∧
    (1 / 1000 ≤ p → p < 1 / 100 → get_significance_marker p = "**") ∧
    (1 / 100 ≤ p → p < 1 / 20 → get_significance_marker p = "*") ∧
    (1 / 20 ≤ p → get_significance_marker p = "n.s.") := by
  refine ⟨rfl, fun h => ?_, fun h1 h2 => ?_, fun h1 h2 => ?_,
    fun h1 => ?_⟩ <;>
  · unfold get_significance_marker
    split_ifs <;> first | rfl | linarith

/-- Witness for C7 at `p = 0.03`, which falls in the `"*"` band. -/
theorem C7_sig_thresholds_witness :
    get_significance_marker (3 / 100) = "*" :=
  (C7_sig_thresholds (3 / 100)).2.2.2.1 (by norm_num) (by norm_num)

-- ## Claim C8

lemma uniqueList_go_nodup (l : List String) :
    ∀ acc : List String, acc.Nodup →
      (l.foldl (fun acc c => if c ∈ acc then acc else acc ++ [c]) acc).Nodup := by
  induction l with
  | nil => exact fun _ h => h
  | cons c l ih =>
    intro acc h
    rw [List.foldl_cons]
    by_cases hc : c ∈ acc
    · rw [if_pos hc]
      exact ih acc h
    · rw [if_neg hc]
      refine ih _ ?_
      simp [List.nodup_append, h, hc]

lemma uniqueList_go_mem (l : List String) (x : String) :
    ∀ acc : List String,
      (x ∈ l.foldl (fun acc c => if c ∈ acc then acc else acc ++ [c]) acc
        ↔ x ∈ acc ∨ x ∈ l) := by
  induction l with
  | nil => intro acc; simp
  | cons c l ih =>
    intro acc
    rw [List.foldl_cons]
    by_cases hc : c ∈ acc
    · rw [if_pos hc, ih]
      simp only [List.mem_cons]
      constructor
      · rintro (h | h)
        · exact Or.inl h
        · exact Or.inr (Or.inr h)
      · rintro (h | h | h)
        · exact Or.inl h
        · exact Or.inl (h ▸ hc)
        · exact Or.inr h
    · rw [if_neg hc, ih]
      simp only [List.mem_append, List.mem_singleton, List.mem_cons]
      tauto

lemma uniqueList_nodup (l : List String) : (uniqueList l).Nodup :=
  uniqueList_go_nodup l [] List.nodup_nil

lemma mem_uniqueList (l : List String) (x : String) :
    x ∈ uniqueList l ↔ x ∈ l := by
  rw [uniqueList, uniqueList_go_mem]
  simp

/-- C8: when every condition label of the table is one of the five
categories and all five occur, the omnibus analyzer's groups (one per
distinct value of the condition column, pandas `unique`) are exactly the
five condition categories, and the reported eta-squared equals
`SS_between / SS_total` with `SS_between = Σ over the five condition
groups of n_g·(mean_g − grand_mean)²` and `SS_total = Σ over all records
of (similarity − grand_mean)²`. -/
theorem C8_omnibus_eta (simDf : List PairRecord)
    (hsub : ∀ r ∈ simDf, r.condition ∈ allConditions)
    (hall : ∀ c ∈ allConditions, c ∈ conditionsOf simDf) :
    (uniqueList (conditionsOf simDf)).length = 5 ∧
    run_omnibus_eta simDf =
      ((allConditions.map fun c =>
          ((condSimilarities simDf c).length : ℚ)
            * (seriesMean (condSimilarities simDf c) - grandMean simDf) ^ 2).sum)
        / ((simDf.map fun r => (r.similarity - grandMean simDf) ^ 2).sum) := by
  have hperm : List.Perm (uniqueList (conditionsOf simDf)) allConditions := by
    apply List.perm_of_nodup_nodup_toFinset_eq (uniqueList_nodup _) (by decide)
    ext x
    simp only [List.mem_toFinset, mem_uniqueList]
    constructor
    · intro hx
      simp only [conditionsOf, List.mem_map] at hx
      obtain ⟨r, hr, rfl⟩ := hx
      exact hsub r hr
    · exact fun hx => hall x hx
  constructor
  · simpa using hperm.length_eq
  · rw [run_omnibus_eta, ssBetween, ssTotal]
    congr 1
    · exact List.Perm.sum_eq (hperm.map _)
    · rw [List.map_map]
      rfl

/-- Witness for C8: a five-row table exhibiting each condition exactly
once yields exactly five ANOVA groups. -/
theorem C8_omnibus_eta_witness :
    (uniqueList (conditionsOf
      [ { doc_i := 0, doc_j := 1, similarity := 1, same_clip := true,
          same_context := true, same_genre := true,
          condition := "same_clip_same_context" }
      , { doc_i := 0, doc_j := 2, similarity := 2, same_clip := true,
          same_context := false, same_genre := true,
          condition := "same_clip_diff_context" }
      , { doc_i := 0, doc_j := 3, similarity := 3, same_clip := false,
          same_context := true, same_genre := true,
          condition := "diff_clip_same_context" }
      , { doc_i := 1, doc_j := 2, similarity := 4, same_clip := false,
          same_context := false, same_genre := true,
          condition := "diff_clip_diff_context_same_genre" }
      , { doc_i := 1, doc_j := 3, similarity := 5, same_clip := false,
          same_context := false, same_genre := false,
          condition := "diff_clip_diff_context_diff_genre" } ])).length
      = 5 :=
  (C8_omnibus_eta _ (by decide) (by decide)).1

-- ## Claim C9

lemma string_beq_comm (a b : String) : (a == b) = (b == a) := by
  by_cases h : a = b
  · simp [h]
  · simp [h, Ne.symm h]

/-- C9: the classifier's labeling is order-invariant — swapping the two
documents of a pair leaves each of the three boolean indicators, and
therefore the assigned condition label, unchanged (the label depends on
the matrix only through the similarity value, which the symmetric matrix
also leaves unchanged); and a pair with equal clips and equal contexts is
always labeled `same_clip_same_context`. -/
theorem C9_order_invariance (md : Metadata) (i j : ℕ) :
    sameClip md i j = sameClip md j i ∧
    sameContext md i j = sameContext md j i ∧
    sameGenre md i j = sameGenre md j i ∧
    conditionLabel (sameClip md i j) (sameContext md i j) (sameGenre md i j)
      = conditionLabel (sameClip md j i) (sameContext md j i)
          (sameGenre md j i) ∧
    (sameClip md i j = true → sameContext md i j = true →
      conditionLabel (sameClip md i j) (sameContext md i j)
        (sameGenre md i j) = "same_clip_same_context") := by
  have hc : sameClip md i j = sameClip md j i := string_beq_comm ..
  have hx : sameContext md i j = sameContext md j i := string_beq_comm ..
  have hg : sameGenre md i j = sameGenre md j i := string_beq_comm ..
  exact ⟨hc, hx, hg, by rw [hc, hx, hg],
    fun h1 h2 => (conditionLabel_cases _ _ _).1 h1 h2⟩

/-- Witness for C9: two documents with equal clip and context labels are
classified `same_clip_same_context`. -/
theorem C9_order_invariance_witness :
    conditionLabel (sameClip ⟨["a", "a"], ["x", "x"], ["g", "h"]⟩ 0 1)
      (sameContext ⟨["a", "a"], ["x", "x"], ["g", "h"]⟩ 0 1)
      (sameGenre ⟨["a", "a"], ["x", "x"], ["g", "h"]⟩ 0 1)
      = "same_clip_same_context" :=
  (C9_order_invariance ⟨["a", "a"], ["x", "x"], ["g", "h"]⟩ 0 1).2.2.2.2
    (by decide) (by decide)

-- ## Claim C10

/-- C10: the three duplicated classifier implementations are equivalent —
on any cosine matrix with metadata of matching length they produce the
same Pair Record list, row for row in the same `i < j` row-major order,
agreeing on document indices, similarity, the three booleans and the
condition label (the index-column naming, `doc_i`/`doc_j` versus `i`/`j`,
is the only dataframe difference and is not part of the record content);
in particular the TF-IDF copy's `'other'` branch is unreachable. -/
theorem C10_classifier_equivalence (n : ℕ) (sim : ℕ → ℕ → ℚ)
    (md : Metadata) (hlen : md.clips.length = n) :
    build_similarity_dataframe n sim md
      = extract_similarity_by_condition n sim md ∧
    extract_similarity_by_condition_tfidf sim md
      = extract_similarity_by_condition n sim md := by
  constructor
  · rw [build_similarity_dataframe, extract_similarity_by_condition,
      pairwise_indices_eq_upperPairs]
    apply List.map_congr_left
    intro p _
    simp [conditionLabelNlp_eq]
  · rw [extract_similarity_by_condition_tfidf,
      extract_similarity_by_condition, hlen]
    apply List.map_congr_left
    intro p _
    simp [conditionLabelTfidf_eq]

/-- Witness for C10 on a concrete two-document corpus. -/
theorem C10_classifier_equivalence_witness :
    build_similarity_dataframe 2 (fun i j => (i + j : ℚ))
        ⟨["a", "b"], ["x", "x"], ["g", "h"]⟩
      = extract_similarity_by_condition 2 (fun i j => (i + j : ℚ))
        ⟨["a", "b"], ["x", "x"], ["g", "h"]⟩ ∧
    extract_similarity_by_condition_tfidf (fun i j => (i + j : ℚ))
        ⟨["a", "b"], ["x", "x"], ["g", "h"]⟩
      = extract_similarity_by_condition 2 (fun i j => (i + j : ℚ))
        ⟨["a", "b"], ["x", "x"], ["g", "h"]⟩ :=
  C10_classifier_equivalence 2 (fun i j => (i + j : ℚ))
    ⟨["a", "b"], ["x", "x"], ["g", "h"]⟩ rfl
